import Mathlib

/-
Verification of the towel-order parsing pipeline.

The repository contains three Python implementations of the same
document-to-line-item extraction pipeline:
  * `app.py`            (block slicing via re.split, chunk extraction, 4x6 labels)
  * `towel_parser.py`   (index-span segmentation, customization scanner)
  * `main_app.py`       (streaming page/line parser with mutable order context)

This file is a shallow embedding of the parsing core of those three files.
Python strings are modelled as Lean `String` (manipulated through their
character lists); documents are modelled as lists of text lines, matching the
output of the external page-text extractor, which yields lines (every regex
anchor used for segmentation is anchored at the start of a line in that
model).  Regular expressions from the source are translated into explicit
character-scanning functions, one per regex, following the semantics of
Python's `re` (leftmost match, greedy quantifiers, documented per function).
All definitions are executable so that concrete runs can be checked with
`decide`.
-/

/-! ## Character and string helpers (Python primitive semantics) -/

/-- Python whitespace test (`\s`, `str.strip`). -/
def isWs (c : Char) : Bool := c.isWhitespace

/-- `str.strip()` on a character list: drop whitespace from both ends. -/
def stripChars (l : List Char) : List Char :=
  ((l.dropWhile isWs).reverse.dropWhile isWs).reverse

/-- `str.strip()`. -/
def pyStrip (s : String) : String := ⟨stripChars s.data⟩

/-- `str.lower()` (ASCII-relevant case folding). -/
def pyLower (s : String) : String := ⟨s.data.map Char.toLower⟩

/-- Case-insensitive literal test: `s.lower().startswith(pat.lower())`. -/
def startsWithCI (pat s : String) : Bool :=
  (pyLower pat).data.isPrefixOf (pyLower s).data

/-- Case-sensitive `str.startswith`. -/
def startsWithCS (pat s : String) : Bool := pat.data.isPrefixOf s.data

/-- Python `pat in s` substring containment. -/
def containsSubstr (s pat : String) : Bool :=
  s.data.tails.any (fun t => pat.data.isPrefixOf t)

/-- Drop the first `n` characters (Python slicing `s[n:]`). -/
def strDrop (s : String) (n : Nat) : String := ⟨s.data.drop n⟩

/-- Split on a character predicate, Python `re.split` on a one-character
class / `str.split(c)`: always returns at least one (possibly empty) part. -/
def splitChars (p : Char → Bool) : List Char → List (List Char)
  | [] => [[]]
  | c :: cs =>
    let r := splitChars p cs
    if p c then [] :: r
    else
      match r with
      | g :: gs => (c :: g) :: gs
      | [] => [[c]]

/-- Value of a nonempty digit run (`int()` of a `\d+` capture). -/
def digitsToNat (l : List Char) : Nat :=
  l.foldl (fun a c => a * 10 + (c.toNat - 48)) 0

/-- Non-overlapping left-to-right `str.replace(pat, rep)` for a nonempty
pattern; `fuel` bounds the recursion (callers pass the input length, which
suffices because every step consumes at least one character). -/
def replaceAux : Nat → List Char → List Char → List Char → List Char
  | 0, l, _, _ => l
  | _ + 1, [], _, _ => []
  | fuel + 1, c :: cs, pat, rep =>
    if pat.isPrefixOf (c :: cs) ∧ pat ≠ [] then
      rep ++ replaceAux fuel ((c :: cs).drop pat.length) pat rep
    else
      c :: replaceAux fuel cs pat rep

/-- `str.replace(pat, rep)` (all non-overlapping occurrences). -/
def pyReplace (s pat rep : String) : String :=
  ⟨replaceAux s.data.length s.data pat.data rep.data⟩

/-- `str.title()`: uppercase a letter that follows a non-letter, lowercase
the other letters. -/
def titleAux : Bool → List Char → List Char
  | _, [] => []
  | prevAlpha, c :: cs =>
    if c.isAlpha then
      (if prevAlpha then c.toLower else c.toUpper) :: titleAux true cs
    else
      c :: titleAux false cs

/-- `str.title()`. -/
def pyTitle (s : String) : String := ⟨titleAux false s.data⟩

/-- `re.sub(r"\s+", " ", txt)`: collapse every whitespace run to one space. -/
def collapseAux : Bool → List Char → List Char
  | _, [] => []
  | inWs, c :: cs =>
    if isWs c then
      if inWs then collapseAux true cs else ' ' :: collapseAux true cs
    else
      c :: collapseAux false cs

/-- `clean_text` from `main_app.py`: collapse whitespace runs, then strip. -/
def cleanText (s : String) : String := pyStrip ⟨collapseAux false s.data⟩

/-- Text after the first colon; the whole string when there is no colon
(Python `s.split(":", 1)[-1]`). -/
def afterFirstColon (s : String) : String :=
  match s.data.dropWhile (fun c => !(c == ':')) with
  | _ :: rest => ⟨rest⟩
  | [] => s

/-- Text after the first `'-'`; the whole string when there is none
(Python `s.split("-", 1)[-1]`). -/
def afterFirstDash (s : String) : String :=
  match s.data.dropWhile (fun c => !(c == '-')) with
  | _ :: rest => ⟨rest⟩
  | [] => s

/-- Python `s.split("-", 2)[-1]`: remainder after the second `'-'` when two
exist, after the first when only one exists, else the whole string. -/
def afterSecondDash (s : String) : String :=
  match s.data.dropWhile (fun c => !(c == '-')) with
  | [] => s
  | _ :: rest1 =>
    match rest1.dropWhile (fun c => !(c == '-')) with
    | [] => ⟨rest1⟩
    | _ :: rest2 => ⟨rest2⟩

/-- `str.rstrip(",")`. -/
def rstripCommas (s : String) : String :=
  ⟨(s.data.reverse.dropWhile (fun c => c == ',')).reverse⟩

/-- `str.rstrip(":")`. -/
def rstripColons (s : String) : String :=
  ⟨(s.data.reverse.dropWhile (fun c => c == ':')).reverse⟩

/-- First-match lookup in an association list (Python `dict.get`; the
source dictionaries have distinct keys, so first match is the match). -/
def alookup (m : List (String × α)) (k : String) : Option α :=
  (m.find? (fun kv => kv.1 == k)).map (·.2)

/-- Exactly `n` leading digits (`\d{n}` at the start); returns the rest. -/
def takeDigits : Nat → List Char → Option (List Char)
  | 0, l => some l
  | _ + 1, [] => none
  | n + 1, c :: cs => if c.isDigit then takeDigits n cs else none

/-- `\d{3}-\d{7}-\d{7}` matched at the head of a character list (anything
may follow). -/
def check377 (l : List Char) : Bool :=
  match takeDigits 3 l with
  | some ('-' :: r1) =>
    match takeDigits 7 r1 with
    | some ('-' :: r2) => (takeDigits 7 r2).isSome
    | _ => false
  | _ => false

/-- `pandas str.contains(r"\d{3}-\d{7}-\d{7}")`: the pattern matches at some
position of the string. -/
def containsOrderIdPattern (s : String) : Bool := s.data.tails.any check377

/-- The full string is exactly one `\d{3}-\d{7}-\d{7}` identifier. -/
def fullMatch377 (s : String) : Bool :=
  match takeDigits 3 s.data with
  | some ('-' :: r1) =>
    match takeDigits 7 r1 with
    | some ('-' :: r2) =>
      match takeDigits 7 r2 with
      | some [] => true
      | _ => false
    | _ => false
  | _ => false

/-! ## SKU decoding (`app.py`: `derive_type_and_color_from_sku`) -/

/-- `SKU_TYPE_MAP` from `app.py`. -/
def SKU_TYPE_MAP : List (String × String) :=
  [("Set-3Pcs", "3-Piece Towel Set"),
   ("Set-6Pcs", "6-Piece Towel Set"),
   ("HT-2Pcs", "2-Piece Hand Towel Set"),
   ("BT-2Pcs", "2-Piece Bath Towel Set"),
   ("BS-1Pcs", "Oversized Bath Sheet")]

/-- The two separators of `re.split(r"[-–]", s)` in
`derive_type_and_color_from_sku` (ASCII hyphen and en dash). -/
def isDashSep (c : Char) : Bool := c == '-' || c == '–'

/-- `derive_type_and_color_from_sku` from `app.py`: split on `[-–]`, first
two parts (re-joined with `-`) form the product code looked up in
`SKU_TYPE_MAP` (after `2PCS`/`1PCS` normalisation, falling back to the code
itself), the rest of the string is the colour. -/
def deriveTypeAndColorFromSku (sku : String) : String × String :=
  if sku = "" then ("", "")
  else
    let s := pyStrip sku
    let parts := splitChars isDashSep s.data
    if parts.length < 2 then ("", "")
    else
      let pfx0 := String.mk (parts.getD 0 []) ++ "-" ++ String.mk (parts.getD 1 [])
      let pfx := pyReplace (pyReplace pfx0 "2PCS" "2Pcs") "1PCS" "1Pcs"
      let ptype := (alookup SKU_TYPE_MAP pfx).getD pfx
      let color :=
        if pfx.length + 1 < s.length then pyStrip (strDrop s (pfx.length + 1))
        else ""
      (ptype, color)

/-! ## Colour translation (`app.py`: `translate_thread_color`,
`main_app.py`: `es_color`) -/

/-- `COLOR_ES` from `app.py`. -/
def COLOR_ES : List (String × String) :=
  [("White", "Blanco"), ("Black", "Negro"), ("Gold", "Dorado"),
   ("Silver", "Plateado"), ("Red", "Rojo"), ("Blue", "Azul"),
   ("Navy", "Azul Marino"), ("Light Blue", "Azul Claro"),
   ("Green", "Verde"), ("Pink", "Rosa"), ("Hot Pink", "Rosa Fucsia"),
   ("Lilac", "Lila"), ("Purple", "Morado"), ("Yellow", "Amarillo"),
   ("Beige", "Beige"), ("Brown", "Marrón"), ("Gray", "Gris"),
   ("Grey", "Gris"), ("Orange", "Naranja"), ("Mid Blue", "Azul Medio"),
   ("Light Grey", "Gris Claro"), ("Aqua", "Aguamarina")]

/-- Hexadecimal digit (`[0-9a-fA-F]`). -/
def isHexDigit (c : Char) : Bool := c.isDigit || ('a' ≤ c ∧ c ≤ 'f') || ('A' ≤ c ∧ c ≤ 'F')

/-- `re.sub(r"\(#[0-9a-fA-F]{3,8}\)", "", raw)`: delete every
`(#hex)` group whose hex run has 3 to 8 digits.  A match requires the
parenthesis to close right after the (maximal) hex run, exactly as the
greedy bounded quantifier does; `fuel` bounds the scan (input length
suffices: every step consumes at least one character). -/
def removeHexAux : Nat → List Char → List Char
  | 0, l => l
  | _ + 1, [] => []
  | fuel + 1, c :: cs =>
    if c = '(' then
      match cs with
      | '#' :: rest =>
        let k := (rest.takeWhile isHexDigit).length
        if 3 ≤ k ∧ k ≤ 8 ∧ (rest.drop k).head? = some ')' then
          removeHexAux fuel (rest.drop (k + 1))
        else c :: removeHexAux fuel cs
      | _ => c :: removeHexAux fuel cs
    else c :: removeHexAux fuel cs

/-- `translate_thread_color` from `app.py`: strip a `(#hex)` suffix, look the
base name up in `COLOR_ES` (falling back to the base itself) and emit
`"<es> (<base>)"`; empty input gives the empty string. -/
def translateThreadColor (raw : String) : String :=
  if raw = "" then ""
  else
    let base := pyStrip ⟨removeHexAux raw.data.length raw.data⟩
    let es := (alookup COLOR_ES base).getD base
    es ++ " (" ++ base ++ ")"

/-- `THREAD_COLOR_ES` from `main_app.py`. -/
def THREAD_COLOR_ES : List (String × String) :=
  [("White", "Blanco"), ("Black", "Negro"), ("Gold", "Dorado"),
   ("Silver", "Plateado"), ("Red", "Rojo"), ("Blue", "Azul"),
   ("Navy", "Azul Marino"), ("Light Blue", "Azul Claro"),
   ("Green", "Verde"), ("Pink", "Rosa"), ("Hot Pink", "Rosa Fucsia"),
   ("Lilac", "Lila"), ("Purple", "Morado"), ("Yellow", "Amarillo"),
   ("Beige", "Beige"), ("Brown", "Marrón"), ("Gray", "Gris"),
   ("Grey", "Gris"), ("Orange", "Naranja"), ("Champagne", "Champán"),
   ("Dark Grey", "Gris Oscuro"), ("Aqua", "Aguamarina"),
   ("Mid Blue", "Azul Medio")]

/-- `es_color` from `main_app.py`: dictionary lookup on the stripped,
title-cased name; the raw name passes through when there is no entry. -/
def esColor (name : String) : String :=
  (alookup THREAD_COLOR_ES (pyTitle (pyStrip name))).getD name

/-! ## `towel_parser.py`: data model and regex anchors -/

/-- `LineItem` dataclass from `towel_parser.py` (the customization `dict`
is modelled as an insertion-ordered association list, Python dict
semantics). -/
structure TLineItem where
  order_id : String
  order_date : String
  shipping_service : String
  buyer_full_name : String
  sku : String
  product_type : String
  color : String
  quantity : Nat
  font : String
  thread_color : String
  customization : List (String × String)
deriving DecidableEq

/-- `ORDER_ID_RE = ^Order ID:\s*([0-9\-]+)(?:\s*Custom Order)?` (ignorecase),
applied with `.match` to a stripped line; returns the captured identifier
(the maximal digits-and-hyphens run, at least one character). -/
def orderIdCapT (t : String) : Option String :=
  if startsWithCI "order id:" t then
    let r := (strDrop t 9).data.dropWhile isWs
    let g := r.takeWhile (fun c => c.isDigit || c == '-')
    if g ≠ [] then some ⟨g⟩ else none
  else none

/-- `is_order_header` from `towel_parser.py` (truthiness of the captured
group, which is always nonempty when the regex matches). -/
def isOrderHeaderT (line : String) : Bool := (orderIdCapT (pyStrip line)).isSome

/-- `SKU_RE = ^SKU:\s*(.+)$` (ignorecase) applied to a stripped line;
returns the capture. -/
def skuMatchT (t : String) : Option String :=
  if startsWithCI "sku:" t then
    let r := (strDrop t 4).data.dropWhile isWs
    if r ≠ [] then some ⟨r⟩ else none
  else none

/-- `CHOOSE_FONT_RE = ^Choose Your Font:\s*(.+)$` (ignorecase) on a stripped
line; the caller strips the capture, which is folded in here. -/
def chooseFontMatchT (t : String) : Option String :=
  if startsWithCI "choose your font:" t then
    let r := pyStrip (strDrop t 17)
    if r ≠ "" then some r else none
  else none

/-- `FONT_COLOR_RE = ^Font Color:\s*([A-Za-z ]+)\s*(?:\(|$)` (ignorecase) on
a stripped line.  The greedy class run must be followed (after optional
whitespace) by `(` or the end of the line; the capture is stripped as the
caller does. -/
def fontColorMatchT (t : String) : Option String :=
  if startsWithCI "font color:" t then
    let r := (strDrop t 11).data.dropWhile isWs
    let run := r.takeWhile (fun c => c.isAlpha || c == ' ')
    let rest := (r.drop run.length).dropWhile isWs
    if run ≠ [] ∧ (rest = [] ∨ rest.head? = some '(') then
      some (pyStrip ⟨run⟩)
    else none
  else none

/-- `STANDALONE_QTY_RE = ^\s*(\d+)\s*$` applied to a raw line. -/
def standaloneQtyMatch (s : String) : Option Nat :=
  let r := s.data.dropWhile isWs
  let ds := r.takeWhile Char.isDigit
  if ds ≠ [] ∧ (r.drop ds.length).all isWs then some (digitsToNat ds) else none

/-- `CUSTOMIZATIONS_HEADER_RE = ^Customizations:\s*$` (ignorecase) on a
stripped line. -/
def custHeaderT (t : String) : Bool := pyLower t == "customizations:"

/-- `ORDER_DATE_RE = ^Order Date:\s*$` (ignorecase) on a stripped line. -/
def orderDateHeaderT (t : String) : Bool := pyLower t == "order date:"

/-- `SHIPPING_SERVICE_RE = ^Shipping Service:\s*$` (ignorecase). -/
def shippingHeaderT (t : String) : Bool := pyLower t == "shipping service:"

/-- `SHIP_TO_RE = ^Ship To:\s*$` (ignorecase). -/
def shipToHeaderT (t : String) : Bool := pyLower t == "ship to:"

/-- `PRODUCT_MAP` from `towel_parser.py`, in insertion order (the lookup in
`guess_product_type` iterates in this order). -/
def PRODUCT_MAP_T : List (String × (String × List String)) :=
  [("Set-6Pcs", ("6-pc Set",
      ["First Washcloth", "Second Washcloth", "First Hand Towel",
       "Second Hand Towel", "First Bath Towel", "Second Bath Towel"])),
   ("Set-3Pcs", ("3-pc Set", ["Washcloth", "Hand Towel", "Bath Towel"])),
   ("HT-2PCS", ("2-pc Hand Towels", ["First Hand Towel", "Second Hand Towel"])),
   ("HT-2Pcs", ("2-pc Hand Towels", ["First Hand Towel", "Second Hand Towel"])),
   ("BT-2Pcs", ("2-pc Bath Towels", ["First Bath Towel", "Second Bath Towel"])),
   ("BS-1Pcs", ("Bath Sheet (Oversized)", ["Oversized Bath Sheet"]))]

/-! ## `towel_parser.py`: segmentation and field extraction -/

/-- Indices of the lines recognised by `is_order_header`
(`enumerate`-style scan in `split_orders`). -/
def headerIdxsT (lines : List String) : List Nat :=
  ((lines.enum).filter (fun p => isOrderHeaderT p.2)).map Prod.fst

/-- `split_orders` from `towel_parser.py`: one `(start, end)` span per
order header, each span ending at the next header (or at the end of the
document). -/
def splitOrdersT (lines : List String) : List (Nat × Nat) :=
  let hs := headerIdxsT lines
  hs.zip (hs.drop 1 ++ [lines.length])

/-- `^[A-Za-z]+Blue$` full match used by `parse_sku_color`. -/
def isAlphaBlueFull (c : String) : Bool :=
  c.data.all Char.isAlpha && "Blue".data.isSuffixOf c.data && 5 ≤ c.length

/-- `parse_sku_color` from `towel_parser.py`. -/
def parseSkuColorT (skuLine : String) : String × String :=
  let sku := pyStrip skuLine
  if containsSubstr sku "-" then
    let parts := splitChars (fun c => c == '-') sku.data
    let product :=
      if ["Set", "HT", "BT", "BS"].any (fun p => startsWithCS p sku) then
        String.intercalate "-" ((parts.take 2).map String.mk)
      else
        String.intercalate "-" ((parts.take (parts.length - 1)).map String.mk)
    let color0 := pyReplace (pyReplace (String.mk (parts.getLastD [])) "_" " ") "Grey" "Gray"
    let color1 := if isAlphaBlueFull color0 then pyReplace color0 "Blue" " Blue" else color0
    let color2 :=
      if startsWithCS "Set-" product then
        let cA := if startsWithCS "Set-" sku then afterSecondDash sku else color1
        let cB :=
          if product == "Set-6Pcs" ∧ startsWithCS "6Pcs-" cA then afterFirstDash cA else cA
        if product == "Set-3Pcs" ∧ startsWithCS "3Pcs-" cB then afterFirstDash cB else cB
      else color1
    (product, pyStrip color2)
  else (sku, "")

/-- `guess_product_type` from `towel_parser.py`: first `PRODUCT_MAP` key
that is a prefix of the product code wins; unknown codes fall back to
`("Monogram Towels", [])`. -/
def guessProductTypeT (product : String) : String × List String :=
  match PRODUCT_MAP_T.find? (fun kv => startsWithCS kv.1 product) with
  | some kv => kv.2
  | none => ("Monogram Towels", [])

/-- Backward scan of `find_quantity_near`: check positions `j`, `j-1`, ...
for `steps` steps, returning the first standalone-number line value
(default 1). -/
def fqnAux (lines : List String) : Nat → Nat → Nat
  | _, 0 => 1
  | j, steps + 1 =>
    match standaloneQtyMatch (lines.getD j "") with
    | some n => n
    | none => fqnAux lines (j - 1) steps

/-- `find_quantity_near` from `towel_parser.py`: scan backwards from the
line before `idx`, for at most 10 lines (`range(idx-1, max(idx-11,-1), -1)`),
for a standalone integer line; default 1. -/
def findQuantityNear (lines : List String) (idx : Nat) : Nat :=
  fqnAux lines (idx - 1) (min 10 idx)

/-- Python-dict insert for the customization map: an existing key keeps its
position and gets the new value, a new key is appended. -/
def dictUpsert : List (String × String) → String → String → List (String × String)
  | [], k, v => [(k, v)]
  | (k', v') :: t, k, v =>
    if k' = k then (k', v) :: t else (k', v') :: dictUpsert t k v

/-- First whitespace-separated word (`p.split()[0]` for the nonempty piece
names of `PRODUCT_MAP`). -/
def headWord (p : String) : String :=
  ⟨(p.data.dropWhile isWs).takeWhile (fun c => !isWs c)⟩

/-- The lowercase piece-name set accepted for monogram / unknown products in
`parse_customizations`. -/
def monogramKeySet : List String :=
  ["first hand towel", "second hand towel", "first bath towel",
   "second bath towel", "washcloth", "hand towel", "bath towel",
   "oversized bath sheet"]

/-- Key of a colon-bearing customization line
(`ln.split(":", 1)` first part, stripped). -/
def custKey (ln : String) : String :=
  pyStrip ⟨ln.data.takeWhile (fun c => !(c == ':'))⟩

/-- Value of a colon-bearing customization line (after the colon,
stripped). -/
def custVal (ln : String) : String := pyStrip (afterFirstColon ln)

/-- Customization-map update of `parse_customizations` for one
colon-bearing line: for structured products (nonempty `expected_pieces`)
the key is kept only when it is an expected piece name or ends with the
first word of one; for monogram / unknown products only the fixed
lowercase piece-name set is kept. -/
def custUpdate (expected : List String) (custom : List (String × String))
    (ln : String) : List (String × String) :=
  if expected.isEmpty then
    if monogramKeySet.contains (pyLower (custKey ln)) then
      dictUpsert custom (custKey ln) (custVal ln)
    else custom
  else
    if expected.contains (custKey ln) ∨
        expected.any (fun p => (headWord p).data.isSuffixOf (custKey ln).data) then
      dictUpsert custom (custKey ln) (custVal ln)
    else custom

/-- The key guard actually enforced by `parse_customizations` for
structured product types (the condition of `custUpdate`, as a predicate of
the key). -/
def c8guard (expected : List String) (k : String) : Prop :=
  expected.contains k = true ∨
  expected.any (fun p => (headWord p).data.isSuffixOf k.data) = true

/-- The scanning loop of `parse_customizations`: `rem` is the unscanned
suffix of the line list, `dist` the offset `i - start_idx`.  Blank lines are
skipped until the scan is more than 25 lines in; a new `Order ID:` or
`SKU:` line stops the scan; font and font-colour anchors update their
slots; other colon-bearing lines update the customization map through
`custUpdate`. -/
def parseCustAux (expected : List String) :
    List String → Nat → String → String → List (String × String) →
    String × String × List (String × String)
  | [], _, font, thread, custom => (font, thread, custom)
  | ln0 :: rest, dist, font, thread, custom =>
    if pyStrip ln0 = "" then
      if 25 < dist then (font, thread, custom)
      else parseCustAux expected rest (dist + 1) font thread custom
    else if (orderIdCapT (pyStrip ln0)).isSome || (skuMatchT (pyStrip ln0)).isSome then
      (font, thread, custom)
    else
      match chooseFontMatchT (pyStrip ln0) with
      | some f => parseCustAux expected rest (dist + 1) f thread custom
      | none =>
        match fontColorMatchT (pyStrip ln0) with
        | some t => parseCustAux expected rest (dist + 1) font t custom
        | none =>
          if containsSubstr (pyStrip ln0) ":" then
            parseCustAux expected rest (dist + 1) font thread
              (custUpdate expected custom (pyStrip ln0))
          else parseCustAux expected rest (dist + 1) font thread custom

/-- `parse_customizations` from `towel_parser.py` (the `product_display`
argument is kept for signature fidelity; the source never reads it). -/
def parseCustomizationsT (lines : List String) (startIdx : Nat)
    (_productDisplay : String) (expected : List String) :
    String × String × List (String × String) :=
  parseCustAux expected (lines.drop startIdx) 0 "" "" []

/-- `parse_order_date` from `towel_parser.py`: find the first
`Order Date:` header within 40 lines of `start`, then the first nonempty
line within the next 5, stripped and with trailing commas removed. -/
def parseOrderDateT (lines : List String) (start : Nat) : String :=
  match (List.range' start (min 40 (lines.length - start))).find?
      (fun i => orderDateHeaderT (pyStrip (lines.getD i ""))) with
  | none => ""
  | some i =>
    match (List.range' (i + 1) (min 5 (lines.length - (i + 1)))).find?
        (fun j => pyStrip (lines.getD j "") != "") with
    | none => ""
    | some j => rstripCommas (pyStrip (lines.getD j ""))

/-- `parse_shipping_service` from `towel_parser.py` (same two-line protocol,
window 40 then 5). -/
def parseShippingServiceT (lines : List String) (start : Nat) : String :=
  match (List.range' start (min 40 (lines.length - start))).find?
      (fun i => shippingHeaderT (pyStrip (lines.getD i ""))) with
  | none => ""
  | some i =>
    match (List.range' (i + 1) (min 5 (lines.length - (i + 1)))).find?
        (fun j => pyStrip (lines.getD j "") != "") with
    | none => ""
    | some j => pyStrip (lines.getD j "")

/-- `parse_buyer_full_name` from `towel_parser.py`: `Ship To:` header within
80 lines, then first nonempty line within the next 5. -/
def parseBuyerFullNameT (lines : List String) (start : Nat) : String :=
  match (List.range' start (min 80 (lines.length - start))).find?
      (fun i => shipToHeaderT (pyStrip (lines.getD i ""))) with
  | none => ""
  | some i =>
    match (List.range' (i + 1) (min 5 (lines.length - (i + 1)))).find?
        (fun j => pyStrip (lines.getD j "") != "") with
    | none => ""
    | some j => pyStrip (lines.getD j "")

/-- The per-span item loop of `parse_orders_from_text`: one item per
`SKU:`-matching line of the span `[s, e)`, with the span's order metadata
copied into each item. -/
def itemsInSpanT (lines : List String) (s e : Nat)
    (oid od ship buyer : String) : List TLineItem :=
  (List.range' s (e - s)).filterMap (fun i =>
    match skuMatchT (pyStrip (lines.getD i "")) with
    | none => none
    | some cap =>
      let skuRaw := pyStrip cap
      let pc := parseSkuColorT skuRaw
      let gp := guessProductTypeT pc.1
      let qty := findQuantityNear lines i
      let ftc :=
        match (List.range' i (min 40 (e - i))).find?
            (fun j => custHeaderT (pyStrip (lines.getD j ""))) with
        | some j => parseCustomizationsT lines (j + 1) gp.1 gp.2
        | none => ("", "", [])
      some ⟨oid, od, ship, buyer, skuRaw, gp.1, pc.2, qty, ftc.1, ftc.2.1, ftc.2.2⟩)

/-- `parse_orders_from_text` from `towel_parser.py`. -/
def parseOrdersFromText (lines : List String) : List TLineItem :=
  (splitOrdersT lines).flatMap (fun se =>
    let oid := (orderIdCapT (pyStrip (lines.getD se.1 ""))).getD ""
    let od := parseOrderDateT lines se.1
    let ship := parseShippingServiceT lines se.1
    let buyer := parseBuyerFullNameT lines se.1
    itemsInSpanT lines se.1 se.2 oid od ship buyer)

/-- One dashboard row of `rows_for_dashboard` (towel_parser.py), in column
order. -/
structure TRow where
  orderId : String
  orderDate : String
  buyerName : String
  productType : String
  color : String
  quantity : Nat
  font : String
  threadColor : String
  customization : String
  shippingService : String
  sku : String
deriving DecidableEq

/-- The `order_map` of `rows_for_dashboard`, keyed by product type. -/
def dashOrderMap : List (String × List String) :=
  [("6-pc Set", ["First Washcloth", "Second Washcloth", "First Hand Towel",
                 "Second Hand Towel", "First Bath Towel", "Second Bath Towel"]),
   ("3-pc Set", ["Washcloth", "Hand Towel", "Bath Towel"]),
   ("2-pc Hand Towels", ["First Hand Towel", "Second Hand Towel"]),
   ("2-pc Bath Towels", ["First Bath Towel", "Second Bath Towel"]),
   ("Bath Sheet (Oversized)", ["Oversized Bath Sheet"])]

/-- `rows_for_dashboard` from `towel_parser.py`: the final output table, one
row per item; the customization map is flattened to a ` | `-joined string
in the product type's canonical piece order (any nonempty values, in
insertion order, for unknown types).  No row is dropped. -/
def rowsForDashboard (items : List TLineItem) : List TRow :=
  items.map (fun it =>
    let sequence := (alookup dashOrderMap it.product_type).getD []
    let custParts :=
      if sequence.isEmpty then
        (it.customization.map (fun kv => kv.2)).filter (fun v => v ≠ "")
      else
        (sequence.map (fun k =>
          (((it.customization.find? (fun kv => kv.1 == k)).map (fun kv => kv.2)).getD ""))).filter
          (fun v => v ≠ "")
    ⟨it.order_id, it.order_date, it.buyer_full_name, it.product_type,
     it.color, it.quantity, it.font, it.thread_color,
     String.intercalate " | " custParts, it.shipping_service, it.sku⟩)

/-! ## `app.py`: block slicing and per-chunk extraction

The document of `app.py` is one big string; the splits
`re.split(r"(?=Order ID:\s*\d{3}-\d{7}-\d{7})", text)` and
`re.split(r"(?=SKU:\s*)", block)` cut it at each anchor occurrence.  In the
line model the anchors of the extractor output occur at the start of a
line, so a block or chunk is a contiguous group of lines starting at an
anchor line; `p.strip()` filtering keeps exactly the groups containing a
non-blank line (stripping also trims blank edges of a block, which the
blank-line filters downstream make irrelevant). -/

/-- Item record assembled by `extract_items_from_block` in `app.py`
(the dictionary appended to `records`, in field order). -/
structure AItem where
  orderId : String
  buyer : String
  sku : String
  productType : String
  towelColor : String
  font : String
  threadColor : String
  custLines : List String
  quantity : Nat
  giftMessage : String
  sourceFile : String
deriving DecidableEq

/-- The order anchor of `slice_blocks_by_order_id`:
`Order ID:\s*\d{3}-\d{7}-\d{7}` at the start of a line (case sensitive). -/
def isOrderAnchorApp (l : String) : Bool :=
  startsWithCS "Order ID:" l && check377 ((strDrop l 9).data.dropWhile isWs)

/-- The item anchor of `extract_items_from_block`: `SKU:` at the start of a
line (case sensitive). -/
def isSkuStartApp (l : String) : Bool := startsWithCS "SKU:" l

/-- Split a line list at the lines satisfying `p`: returns the lines before
the first anchor and the groups each starting with an anchor line (the line
model of `re.split` with a lookahead pattern). -/
def splitAtAnchors (p : String → Bool) : List String → List String × List (List String)
  | [] => ([], [])
  | x :: xs =>
    let r := splitAtAnchors p xs
    if p x then ([], (x :: r.1) :: r.2) else (x :: r.1, r.2)

/-- A block whose joined text does not strip to the empty string, i.e. it
contains a non-blank line. -/
def blockNonblank (b : List String) : Bool := b.any (fun l => pyStrip l != "")

/-- `slice_blocks_by_order_id` from `app.py`: split before every order
anchor and keep the parts that are non-blank after stripping (the part
before the first anchor included). -/
def sliceBlocksByOrderId (lines : List String) : List (List String) :=
  let pr := splitAtAnchors isOrderAnchorApp lines
  (pr.1 :: pr.2).filter blockNonblank

/-- `find_field_value` from `app.py`: value after the colon of the first
line that starts (case-insensitively, after stripping) with the key. -/
def findFieldValue (lines : List String) (key : String) : String :=
  let k := pyStrip key
  match lines.find? (fun ln => startsWithCI k (pyStrip ln)) with
  | none => ""
  | some ln => pyStrip (afterFirstColon (pyStrip ln))

/-- `CUST_KEYS` from `app.py`. -/
def CUST_KEYS : List String :=
  ["Washcloth:", "Hand Towel:", "Bath Towel:", "Oversized Bath Sheet:",
   "Guest Towel:", "First Washcloth:", "Second Washcloth:",
   "First Hand Towel:", "Second Hand Towel:",
   "First Bath Towel:", "Second Bath Towel:"]

/-- `collect_customization_lines` from `app.py`: for each line, the first
`CUST_KEYS` entry the stripped line starts with produces one display line
(`First `/`Second ` dropped from the key). -/
def collectCustomizationLines (lines : List String) : List String :=
  lines.filterMap (fun ln =>
    let s := pyStrip ln
    match CUST_KEYS.find? (fun key => startsWithCS key s) with
    | none => none
    | some key =>
      let value := pyStrip (afterFirstColon s)
      let dispKey := pyStrip (pyReplace (pyReplace key "First " "") "Second " "")
      some (if value ≠ "" then dispKey ++ " " ++ value else rstripColons dispKey))

/-- Word character for the `\b` boundary (`[A-Za-z0-9_]` and unicode
alphanumerics, matching Python `\w` on this ASCII data). -/
def isWordChar (c : Char) : Bool := c.isAlphanum || c == '_'

/-- Search scan of `\bQuantity\s+(\d+)` (ignorecase): leftmost position
with a word boundary, the literal word, at least one whitespace character
(newlines included) and a digit run. -/
def qwsAux : Option Char → List Char → Option Nat
  | _, [] => none
  | prev, c :: cs =>
    let boundary := match prev with
      | none => true
      | some p => !isWordChar p
    let hit :=
      if boundary && "quantity".data.isPrefixOf ((c :: cs).map Char.toLower) then
        let r := (c :: cs).drop 8
        let wsRun := r.takeWhile isWs
        let ds := (r.drop wsRun.length).takeWhile Char.isDigit
        if wsRun ≠ [] ∧ ds ≠ [] then some (digitsToNat ds) else none
      else none
    match hit with
    | some n => some n
    | none => qwsAux (some c) cs

/-- `re.search(r"\bQuantity\s+(\d+)", text, re.IGNORECASE)`. -/
def quantityWordSearch (text : String) : Option Nat := qwsAux none text.data

/-- `detect_quantity` from `app.py`: `Quantity <n>` in the chunk first, then
in the surrounding block, else 1. -/
def detectQuantity (chunkText blockText : String) : Nat :=
  match quantityWordSearch chunkText with
  | some n => n
  | none =>
    match quantityWordSearch blockText with
    | some n => n
    | none => 1

/-- Joined text of a group of lines (for the regex searches that run over
chunk and block strings). -/
def chunkText (ls : List String) : String := String.intercalate "\n" ls

/-- Font of a chunk in `extract_items_from_block`: `Choose Your Font` first,
`Embroidery Font` only when that produced nothing. -/
def fontOfChunk (chLines : List String) : String :=
  let f := findFieldValue chLines "Choose Your Font"
  if f = "" then findFieldValue chLines "Embroidery Font" else f

/-- Raw thread colour of a chunk in `extract_items_from_block`:
`Font Color` first, `Thread Color` only when that produced nothing. -/
def threadRawOfChunk (chLines : List String) : String :=
  let t := findFieldValue chLines "Font Color"
  if t = "" then findFieldValue chLines "Thread Color" else t

/-- The SKU chunks of a block: split before every `SKU:` line and keep the
parts whose text contains `"SKU:"` (the `if "SKU:" not in ch: continue`
guard). -/
def skuChunksOfBlock (block : List String) : List (List String) :=
  let pr := splitAtAnchors isSkuStartApp block
  (pr.1 :: pr.2).filter (fun ch => ch.any (fun l => containsSubstr l "SKU:"))

/-- `extract_items_from_block` from `app.py`. -/
def extractItemsFromBlock (block : List String) (sourceName : String) : List AItem :=
  let lines := block.filter (fun ln => pyStrip ln != "")
  let orderId := findFieldValue lines "Order ID"
  let buyer := findFieldValue lines "Buyer Name"
  let giftMsg :=
    ((["Gift Message", "Gift Bag"].filterMap (fun gk =>
        let v := findFieldValue lines gk
        if v ≠ "" then some (gk ++ ": " ++ v) else none)).headD "")
  (skuChunksOfBlock block).filterMap (fun ch =>
    let chLines := ch.filter (fun ln => pyStrip ln != "")
    let sku := findFieldValue chLines "SKU"
    if sku = "" then none
    else
      let qty := detectQuantity (chunkText ch) (chunkText block)
      let font := fontOfChunk chLines
      let threadRaw := threadRawOfChunk chLines
      let threadColor := if threadRaw ≠ "" then translateThreadColor threadRaw else ""
      let custLines := collectCustomizationLines chLines
      let tc := deriveTypeAndColorFromSku sku
      some ⟨orderId, buyer, sku, tc.1, tc.2, font, threadColor, custLines,
            qty, giftMsg, sourceName⟩)

/-- The record-building body of `parse_pdfs_to_df` for one document (slice
into order blocks, extract the items of each block). -/
def appRecordsOfDoc (docLines : List String) (fname : String) : List AItem :=
  (sliceBlocksByOrderId docLines).flatMap (fun b => extractItemsFromBlock b fname)

/-- The final validation of `parse_pdfs_to_df`: keep the rows whose
`Order ID` contains a `\d{3}-\d{7}-\d{7}` match
(`df["Order ID"].str.contains(...)`). -/
def appFilterRecords (recs : List AItem) : List AItem :=
  recs.filter (fun r => containsOrderIdPattern r.orderId)

/-! ## `main_app.py`: streaming page/line parser

The regexes of `main_app.py` are searches over single cleaned lines;
each is translated into a scan over the line's characters with the same
leftmost-match, greedy-capture semantics.  Because the code always strips
group captures whose classes contain `\s`, the `\s*`-versus-class
backtracking ambiguity disappears and the stripped maximal class run is the
captured value. -/

/-- `ParsedItem` dataclass from `main_app.py`. -/
structure MItem where
  order_id : String
  buyer_name : String
  sku : String
  product_type : String
  color : String
  thread_color_en : String
  thread_color_es : String
  customization : String
  font : String
  quantity : Nat
  gift_message : String
  source_file : String
deriving DecidableEq

/-- The mutable `item_ctx` dict (absent keys are `none`,
`custom_lines` starts empty). -/
structure MCtx where
  orderId : Option String
  buyerName : Option String
  sku : Option String
  font : Option String
  threadColor : Option String
  giftMessage : Option String
  quantity : Option Nat
  customLines : List String
deriving DecidableEq

/-- `item_ctx = {"custom_lines": []}`. -/
def emptyCtx : MCtx := ⟨none, none, none, none, none, none, none, []⟩

/-- The mutable parser state of `parse_pdfs`: `current_order_id`,
`current_buyer`, `leading_qty_for_next_item`, the item context and the
accumulated rows. -/
structure MSt where
  currentOrderId : Option String
  currentBuyer : String
  leadingQty : Option Nat
  ctx : MCtx
  rows : List MItem
deriving DecidableEq

/-- Generic search scan: at the leftmost occurrence of `key` followed by a
nonempty run of `cls` characters (after skipping whitespace when `skipWs`,
for classes disjoint from `\s`), return that run; otherwise continue the
scan one character further. -/
def searchRun (key : List Char) (cls : Char → Bool) (skipWs : Bool) :
    List Char → Option (List Char)
  | [] => none
  | c :: cs =>
    (if key.isPrefixOf (c :: cs) then
      let r := (c :: cs).drop key.length
      let r1 := if skipWs then r.dropWhile isWs else r
      let run := r1.takeWhile cls
      if run ≠ [] then some run else none
    else none).orElse (fun _ => searchRun key cls skipWs cs)

/-- Class of `BUYER_NAME_RE`: `[A-Za-z0-9\s\.'\-&]`. -/
def buyerCls (c : Char) : Bool :=
  c.isAlphanum || isWs c || c == '.' || c == Char.ofNat 39 || c == '-' || c == '&'

/-- `BUYER_NAME_RE.search`: `Buyer Name:\s*([A-Za-z0-9\s\.'\-&]+)`, capture
stripped as the caller does. -/
def buyerSearchMain (s : String) : Option String :=
  (searchRun "Buyer Name:".data buyerCls false s.data).map (fun run => pyStrip ⟨run⟩)

/-- Class of `SKU_RE` in `main_app.py`: `[A-Za-z0-9\-]`. -/
def skuClsMain (c : Char) : Bool := c.isAlphanum || c == '-'

/-- `SKU_RE.search`: `SKU:\s*([A-Za-z0-9\-]+)`, capture stripped. -/
def skuSearchMain (s : String) : Option String :=
  (searchRun "SKU:".data skuClsMain true s.data).map (fun run => pyStrip ⟨run⟩)

/-- Class of `CHOOSE_FONT_RE` in `main_app.py`: `[A-Za-z0-9\s\-\._&]`. -/
def fontClsMain (c : Char) : Bool :=
  c.isAlphanum || isWs c || c == '-' || c == '.' || c == '_' || c == '&'

/-- `CHOOSE_FONT_RE.search`: `Choose Your Font:\s*([A-Za-z0-9\s\-\._&]+)`,
capture stripped. -/
def chooseFontSearchMain (s : String) : Option String :=
  (searchRun "Choose Your Font:".data fontClsMain false s.data).map
    (fun run => pyStrip ⟨run⟩)

/-- Scan for `fontColorSearchMain`. -/
def fcsAux : List Char → Option String
  | [] => none
  | c :: cs =>
    (if "Font Color:".data.isPrefixOf (c :: cs) then
      let r := (c :: cs).drop 11
      let run := r.takeWhile (fun ch => ch.isAlpha || isWs ch)
      if run ≠ [] ∧ (r.drop run.length).head? = some '(' then
        some (pyStrip ⟨run⟩)
      else none
    else none).orElse (fun _ => fcsAux cs)

/-- `FONT_COLOR_RE.search` from `main_app.py`:
`Font Color:\s*([A-Za-z\s]+)\s*\(#?[A-Fa-f0-9]{0,8}\)?` — the class run must
be followed by a literal `(` (everything after it is optional); capture
stripped. -/
def fontColorSearchMain (s : String) : Option String := fcsAux s.data

/-- Scan for `giftSearchMain`. -/
def giftAux : List Char → Option String
  | [] => none
  | c :: cs =>
    (if "gift".data.isPrefixOf ((c :: cs).map Char.toLower) then
      let r := ((c :: cs).drop 4).dropWhile isWs
      let kind := ["message", "card", "bag"].find?
        (fun k => k.data.isPrefixOf (r.map Char.toLower))
      match kind with
      | none => none
      | some k =>
        let r2 := (r.drop k.length).dropWhile isWs
        match r2 with
        | ':' :: rest => if rest ≠ [] then some (pyStrip ⟨rest⟩) else none
        | _ => none
    else none).orElse (fun _ => giftAux cs)

/-- `GIFT_MSG_RE.search`: `(?i)Gift\s*(Message|Card|Bag)\s*:\s*(.+)` —
capture group 2 stripped (a match needs at least one character after the
colon). -/
def giftSearchMain (s : String) : Option String := giftAux s.data

/-- `LEADING_QTY_RE.match`:
`^(\d+)\s+(Personalized|ViaDante|Monogrammed|Set of|Hand Towel|Bath Towel|Bath Sheet)`
(case sensitive, anchored at the line start). -/
def leadingQtyMatchMain (s : String) : Option Nat :=
  let ds := s.data.takeWhile Char.isDigit
  if ds = [] then none
  else
    let r := s.data.drop ds.length
    let wsRun := r.takeWhile isWs
    if wsRun = [] then none
    else
      let r1 := r.drop wsRun.length
      if ["Personalized", "ViaDante", "Monogrammed", "Set of", "Hand Towel",
          "Bath Towel", "Bath Sheet"].any (fun a => a.data.isPrefixOf r1) then
        some (digitsToNat ds)
      else none

/-- The alternation of `CUSTOM_LINE_RE`, in source order. -/
def customAltsMain : List String :=
  ["Washcloth", "Hand Towel", "First Hand Towel", "Second Hand Towel",
   "Bath Towel", "First Bath Towel", "Second Bath Towel",
   "First Washcloth", "Second Washcloth", "Oversized Bath Sheet"]

/-- `CUSTOM_LINE_RE.match`: `^(<piece names>)\s*:\s*(.+)$` — the first
alternative that is a line prefix followed by `ws* : rest(≥1 char)`;
returns the matched label and the stripped value. -/
def customLineMatchMain (s : String) : Option (String × String) :=
  customAltsMain.findSome? (fun alt =>
    if startsWithCS alt s then
      match (s.data.drop alt.length).dropWhile isWs with
      | ':' :: rest => if rest ≠ [] then some (alt, pyStrip ⟨rest⟩) else none
      | _ => none
    else none)

/-- Scan for `orderIdSearchMain`. -/
def oismAux : List Char → Option String
  | [] => none
  | c :: cs =>
    (if "Order ID:".data.isPrefixOf (c :: cs) then
      let r := ((c :: cs).drop 9).dropWhile isWs
      if check377 r then some ⟨r.take 19⟩ else none
    else none).orElse (fun _ => oismAux cs)

/-- `ORDER_ID_RE.search` from `main_app.py`:
`Order ID:\s*(\d{3}-\d{7}-\d{7})` (case sensitive); the capture is the
19-character identifier. -/
def orderIdSearchMain (s : String) : Option String := oismAux s.data

/-- `derive_product_type_and_color` from `main_app.py`. -/
def deriveProductTypeAndColorMain (sku : String) : String × String :=
  let parts := splitChars (fun c => c == '-') sku.data
  let pfx :=
    if 2 ≤ parts.length then
      if ["HT", "BT"].contains (String.mk (parts.getD 0 [])) then
        String.intercalate "-" ((parts.take 2).map String.mk)
      else String.mk (parts.getD 0 [])
    else sku
  let color := if 2 ≤ parts.length then String.mk (parts.getLastD []) else ""
  let productMap : List (String × String) :=
    [("Set-6Pcs", "6-Piece Towel Set"), ("Set-3Pcs", "3-Piece Towel Set"),
     ("HT-2Pcs", "Hand Towel Set (2 pcs)"), ("BT-2Pcs", "Bath Towel Set (2 pcs)"),
     ("BS-1Pcs", "Bath Sheet (1 pc)"), ("HT", "Hand Towel Set (2 pcs)"),
     ("BT", "Bath Towel Set (2 pcs)"), ("BS", "Bath Sheet (1 pc)")]
  ((alookup productMap pfx).getD pfx,
   pyReplace (pyReplace color "_" " ") "MidBlue" "Mid Blue")

/-- The banned value starters of the customization filter
(`val.lower().startswith((...))`). -/
def bannedCustomVal (val : String) : Bool :=
  ["item subtotal", "promotion", "tax", "grand total"].any
    (fun p => p.data.isPrefixOf (pyLower val).data)

/-- `flush_item_if_ready` from `main_app.py`: emit a `ParsedItem` when the
context holds a (truthy) SKU. -/
def flushItem (ctx : MCtx) (src : String) (rows : List MItem) : List MItem :=
  match ctx.sku with
  | none => rows
  | some sku =>
    if sku = "" then rows
    else
      let tc := deriveProductTypeAndColorMain sku
      let threadEn := ctx.threadColor.getD ""
      let threadEs := if threadEn ≠ "" then esColor threadEn else ""
      let customization :=
        if ctx.customLines.isEmpty then ""
        else String.intercalate " / " (ctx.customLines.map cleanText)
      rows ++ [⟨ctx.orderId.getD "", ctx.buyerName.getD "", sku, tc.1, tc.2,
               threadEn, threadEs, customization, ctx.font.getD "",
               ctx.quantity.getD 1, ctx.giftMessage.getD "", src⟩]

/-- One iteration of the per-line field loop of `parse_pdfs`: the buyer,
gift, leading-quantity, SKU, font, thread-colour and customization checks
are applied in source order (they are independent `if`s, so several can
fire on one line). -/
def processLineMain (src : String) (st : MSt) (line : String) : MSt :=
  let st :=
    match buyerSearchMain line with
    | some b => { st with currentBuyer := b, ctx := { st.ctx with buyerName := some b } }
    | none => st
  let st :=
    match giftSearchMain line with
    | some g => { st with ctx := { st.ctx with giftMessage := some g } }
    | none => st
  let st :=
    match leadingQtyMatchMain line with
    | some n => { st with leadingQty := some n }
    | none => st
  let st :=
    match skuSearchMain line with
    | none => st
    | some sk =>
      let st :=
        if (st.ctx.sku.getD "") ≠ "" then
          let freshCtx : MCtx :=
            { emptyCtx with orderId := st.currentOrderId, buyerName := some st.currentBuyer }
          { st with rows := flushItem st.ctx src st.rows, ctx := freshCtx }
        else st
      match st.leadingQty with
      | some n =>
        if n ≠ 0 then
          { st with ctx := { st.ctx with sku := some sk, quantity := some n },
                    leadingQty := none }
        else
          { st with ctx := { st.ctx with sku := some sk, quantity := some 1 } }
      | none =>
        { st with ctx := { st.ctx with sku := some sk, quantity := some 1 } }
  let st :=
    match chooseFontSearchMain line with
    | some f => { st with ctx := { st.ctx with font := some f } }
    | none => st
  let st :=
    match fontColorSearchMain line with
    | some t => { st with ctx := { st.ctx with threadColor := some t } }
    | none => st
  match customLineMatchMain line with
  | some kv =>
    if kv.2 ≠ "" ∧ ¬bannedCustomVal kv.2 then
      { st with ctx := { st.ctx with
          customLines := st.ctx.customLines ++ [kv.1 ++ ": " ++ kv.2] } }
    else st
  | none => st

/-- One page of `parse_pdfs`: clean and filter the raw lines, run the
order-detection pass (first line with an `Order ID` match flushes the
pending item and resets the context — `buyer_name` defaulting to the
carried `current_buyer`), then run the field loop over all lines. -/
def processPageMain (src : String) (st : MSt) (rawPage : List String) : MSt :=
  let lines := (rawPage.map cleanText).filter (fun l => l != "")
  let st :=
    match lines.findSome? orderIdSearchMain with
    | some oid =>
      let freshCtx : MCtx :=
        { emptyCtx with orderId := some oid, buyerName := some st.currentBuyer }
      { st with rows := flushItem st.ctx src st.rows, ctx := freshCtx,
                currentOrderId := some oid, leadingQty := none }
    | none => st
  lines.foldl (processLineMain src) st

/-- `parse_pdfs` from `main_app.py` for one document (a list of pages, each
a list of raw text lines): fold the pages and flush the pending item at the
end.  The subsequent DataFrame step only reformats fields (fill / title
case); the rows here are the emitted items. -/
def mainParsePdfs (pages : List (List String)) (src : String) : List MItem :=
  let st0 : MSt := ⟨none, "", none, emptyCtx, []⟩
  let stF := pages.foldl (processPageMain src) st0
  flushItem stF.ctx src stF.rows

/-! ## General lemmas about the segmentation helpers -/

lemma enumFrom_filter_length (q : String → Bool) :
    ∀ (l : List String) (n : Nat),
      ((List.enumFrom n l).filter (fun p => q p.2)).length = l.countP q := by
  intro l
  induction l with
  | nil => intro n; rfl
  | cons x xs ih =>
    intro n
    rw [List.enumFrom, List.filter_cons, List.countP_cons]
    by_cases h : q x
    · simp [h, ih]
    · simp [h, ih]

lemma zip_spans_length (hs : List Nat) (n : Nat) :
    (hs.zip (hs.drop 1 ++ [n])).length = hs.length := by
  cases hs with
  | nil => rfl
  | cons a t => simp [List.length_zip]

lemma splitOrdersT_length (lines : List String) :
    (splitOrdersT lines).length = lines.countP isOrderHeaderT := by
  unfold splitOrdersT
  rw [zip_spans_length]
  unfold headerIdxsT
  rw [List.length_map]
  exact enumFrom_filter_length _ lines 0

lemma splitAtAnchors_snd_length (p : String → Bool) (l : List String) :
    ((splitAtAnchors p l).2).length = l.countP p := by
  induction l with
  | nil => rfl
  | cons x xs ih =>
    rw [splitAtAnchors, List.countP_cons]
    by_cases h : p x
    · simp [h, ih]
    · simp [h, ih]

lemma splitAtAnchors_fst (p : String → Bool) (l : List String) :
    (splitAtAnchors p l).1 = l.takeWhile (fun x => !p x) := by
  induction l with
  | nil => rfl
  | cons x xs ih =>
    rw [splitAtAnchors, List.takeWhile_cons]
    by_cases h : p x
    · simp [h]
    · simp [h, ih]

lemma splitAtAnchors_snd_forall (p : String → Bool) (l : List String) :
    ∀ g ∈ (splitAtAnchors p l).2, ∃ y t, g = y :: t ∧ p y = true := by
  induction l with
  | nil => intro g hg; simp [splitAtAnchors] at hg
  | cons x xs ih =>
    intro g hg
    rw [splitAtAnchors] at hg
    by_cases h : p x
    · simp only [h, if_true] at hg
      rcases List.mem_cons.mp hg with h1 | h2
      · exact ⟨x, _, h1, h⟩
      · exact ih g h2
    · simp only [h, if_false] at hg
      exact ih g hg

lemma mem_dropWhile_of_neg {p : Char → Bool} {c : Char} {l : List Char}
    (hc : c ∈ l) (h : p c = false) : c ∈ l.dropWhile p := by
  have hsplit := List.takeWhile_append_dropWhile (p := p) (l := l)
  rw [← hsplit] at hc
  rcases List.mem_append.mp hc with h1 | h2
  · have := List.mem_takeWhile_imp h1
    rw [h] at this
    exact absurd this (by simp)
  · exact h2

lemma mem_of_mem_stripChars {c : Char} {l : List Char}
    (h : c ∈ stripChars l) : c ∈ l := by
  unfold stripChars at h
  rw [List.mem_reverse] at h
  have h2 : c ∈ (l.dropWhile isWs).reverse := (List.dropWhile_sublist _).mem h
  rw [List.mem_reverse] at h2
  exact (List.dropWhile_sublist _).mem h2

lemma stripChars_ne_nil {l : List Char} {c : Char}
    (hc : c ∈ l) (hw : isWs c = false) : stripChars l ≠ [] := by
  unfold stripChars
  intro hcontra
  have h1 : c ∈ l.dropWhile isWs := mem_dropWhile_of_neg hc hw
  have h2 : c ∈ (l.dropWhile isWs).reverse := List.mem_reverse.mpr h1
  have h3 : c ∈ (l.dropWhile isWs).reverse.dropWhile isWs :=
    mem_dropWhile_of_neg h2 hw
  have h4 := List.mem_reverse.mpr h3
  rw [hcontra] at h4
  exact absurd h4 (List.not_mem_nil c)

lemma pyStrip_nonblank_of_startsACS {pat l : String} {c : Char}
    (hc : c ∈ pat.data) (hw : isWs c = false)
    (h : startsWithCS pat l = true) : (pyStrip l != "") = true := by
  unfold startsWithCS at h
  obtain ⟨t, ht⟩ := (List.isPrefixOf_iff_prefix.mp h)
  have hcl : c ∈ l.data := by
    rw [← ht]
    exact List.mem_append.mpr (Or.inl hc)
  have := stripChars_ne_nil hcl hw
  unfold pyStrip
  simp only [bne_iff_ne, ne_eq]
  intro he
  exact this (congrArg String.data he)

lemma contains_of_startsWith {pat l : String}
    (h : startsWithCS pat l = true) : containsSubstr l pat = true := by
  unfold containsSubstr
  rw [List.any_eq_true]
  exact ⟨l.data, (List.mem_tails _ _).mpr (List.suffix_refl _), h⟩

lemma length_filterMap_countP {α β : Type} (l : List α) (f : α → Option β)
    (p : α → Bool) (h : ∀ a, (f a).isSome = p a) :
    (l.filterMap f).length = l.countP p := by
  induction l with
  | nil => rfl
  | cons x xs ih =>
    rw [List.filterMap_cons, List.countP_cons]
    cases hf : f x with
    | none =>
      have hp := h x
      rw [hf] at hp
      simp only [Option.isSome_none] at hp
      simp [← hp, ih]
    | some b =>
      have hp := h x
      rw [hf] at hp
      simp only [Option.isSome_some] at hp
      simp [← hp, ih]

lemma sliceBlocks_length (lines : List String) :
    (sliceBlocksByOrderId lines).length =
      lines.countP isOrderAnchorApp +
      (if blockNonblank (lines.takeWhile (fun l => !isOrderAnchorApp l)) then 1 else 0) := by
  unfold sliceBlocksByOrderId
  have hgs : ∀ g ∈ (splitAtAnchors isOrderAnchorApp lines).2, blockNonblank g = true := by
    intro g hg
    obtain ⟨y, t, hgy, hy⟩ := splitAtAnchors_snd_forall _ _ g hg
    subst hgy
    unfold blockNonblank
    rw [List.any_cons]
    have hsw : startsWithCS "Order ID:" y = true := by
      unfold isOrderAnchorApp at hy
      simp only [Bool.and_eq_true] at hy
      exact hy.1
    have : (pyStrip y != "") = true :=
      pyStrip_nonblank_of_startsACS (c := 'O') (by decide) (by decide) hsw
    simp [this]
  rw [List.filter_cons]
  by_cases h : blockNonblank (splitAtAnchors isOrderAnchorApp lines).1
  · rw [if_pos h, List.filter_eq_self.mpr hgs]
    rw [splitAtAnchors_fst] at h
    simp [h, splitAtAnchors_snd_length, Nat.add_comm]
  · rw [if_neg h, List.filter_eq_self.mpr hgs]
    rw [splitAtAnchors_fst] at h
    simp [h, splitAtAnchors_snd_length]

lemma skuChunks_length (block : List String)
    (H : ∀ l ∈ block, containsSubstr l "SKU:" = true → isSkuStartApp l = true) :
    (skuChunksOfBlock block).length = block.countP isSkuStartApp := by
  unfold skuChunksOfBlock
  have hpre : ((splitAtAnchors isSkuStartApp block).1.any
      (fun l => containsSubstr l "SKU:")) = false := by
    rw [splitAtAnchors_fst]
    rw [List.any_eq_false]
    intro l hl
    have hmem : l ∈ block := (List.takeWhile_sublist _).mem hl
    have hnp : isSkuStartApp l = false := by
      have := List.mem_takeWhile_imp hl
      simpa using this
    intro hcontains
    rw [H l hmem hcontains] at hnp
    exact absurd hnp (by simp)
  have hgs : ∀ g ∈ (splitAtAnchors isSkuStartApp block).2,
      (g.any (fun l => containsSubstr l "SKU:")) = true := by
    intro g hg
    obtain ⟨y, t, hgy, hy⟩ := splitAtAnchors_snd_forall _ _ g hg
    subst hgy
    rw [List.any_cons]
    have : containsSubstr y "SKU:" = true := contains_of_startsWith hy
    simp [this]
  rw [List.filter_cons, hpre]
  simp only [if_false, Bool.false_eq_true]
  rw [List.filter_eq_self.mpr hgs, splitAtAnchors_snd_length]

lemma itemsInSpanT_length (lines : List String) (s e : Nat)
    (oid od ship buyer : String) :
    (itemsInSpanT lines s e oid od ship buyer).length =
      (List.range' s (e - s)).countP
        (fun i => (skuMatchT (pyStrip (lines.getD i ""))).isSome) := by
  unfold itemsInSpanT
  apply length_filterMap_countP
  intro i
  cases h : skuMatchT (pyStrip (lines.getD i "")) with
  | none => simp [h]
  | some cap => simp [h]

/-! ## Quantity-scan lemmas (`find_quantity_near`, `detect_quantity`) -/

lemma fqnAux_eq_one (lines : List String) :
    ∀ (steps j : Nat),
      (∀ t, t < steps → standaloneQtyMatch (lines.getD (j - t) "") = none) →
      fqnAux lines j steps = 1 := by
  intro steps
  induction steps with
  | zero => intro j _; rfl
  | succ s ih =>
    intro j h
    rw [fqnAux]
    have h0 := h 0 (Nat.succ_pos s)
    rw [Nat.sub_zero] at h0
    rw [h0]
    exact ih (j - 1) (fun t ht => by
      have hval := h (t + 1) (Nat.succ_lt_succ ht)
      have harg : j - 1 - t = j - (t + 1) := by omega
      rw [harg]
      exact hval)

lemma fqnAux_hit (lines : List String) :
    ∀ (s j n : Nat),
      (∀ t, t < s → standaloneQtyMatch (lines.getD (j - t) "") = none) →
      standaloneQtyMatch (lines.getD (j - s) "") = some n →
      fqnAux lines j (s + 1) = n := by
  intro s
  induction s with
  | zero =>
    intro j n _ hhit
    rw [Nat.sub_zero] at hhit
    rw [fqnAux, hhit]
  | succ s ih =>
    intro j n h hhit
    rw [fqnAux]
    have h0 := h 0 (Nat.succ_pos s)
    rw [Nat.sub_zero] at h0
    rw [h0]
    refine ih (j - 1) n (fun t ht => ?_) ?_
    · have hval := h (t + 1) (Nat.succ_lt_succ ht)
      have harg : j - 1 - t = j - (t + 1) := by omega
      rw [harg]
      exact hval
    · have harg : j - 1 - s = j - (s + 1) := by omega
      rw [harg]
      exact hhit

/-! ## Claim C1 -/

/-- C1 (counterexample): `slice_blocks_by_order_id` does not discard the
text before the first order anchor — a document with one anchor line and a
non-blank preamble line yields two blocks, not one, and the preamble line
is one of them. -/
theorem claim_C1_counterexample :
    (["junk", "Order ID: 123-4567890-1234567"].countP isOrderAnchorApp = 1) ∧
    (sliceBlocksByOrderId ["junk", "Order ID: 123-4567890-1234567"]).length = 2 ∧
    ["junk"] ∈ sliceBlocksByOrderId ["junk", "Order ID: 123-4567890-1234567"] := by
  refine ⟨by decide, by decide, by decide⟩

/-- C1 (amended): segmentation counts.  `split_orders` yields exactly one
span per order-header line (pre-anchor lines are in no span);
`slice_blocks_by_order_id` yields one block per anchor line plus one extra
block when the pre-anchor text is non-blank (the preamble is kept, not
discarded); a block whose every `SKU:` occurrence starts a line has exactly
one SKU chunk per `SKU:`-anchor line; and the item loop of
`parse_orders_from_text` yields exactly one item per `SKU:`-matching line
of a span. -/
theorem claim_C1_segmentation_counts :
    (∀ lines : List String,
        (splitOrdersT lines).length = lines.countP isOrderHeaderT) ∧
    (∀ lines : List String,
        (sliceBlocksByOrderId lines).length =
          lines.countP isOrderAnchorApp +
          (if blockNonblank (lines.takeWhile (fun l => !isOrderAnchorApp l))
            then 1 else 0)) ∧
    (∀ block : List String,
        (∀ l ∈ block, containsSubstr l "SKU:" = true → isSkuStartApp l = true) →
        (skuChunksOfBlock block).length = block.countP isSkuStartApp) ∧
    (∀ (lines : List String) (s e : Nat) (oid od ship buyer : String),
        (itemsInSpanT lines s e oid od ship buyer).length =
          (List.range' s (e - s)).countP
            (fun i => (skuMatchT (pyStrip (lines.getD i ""))).isSome)) :=
  ⟨splitOrdersT_length, sliceBlocks_length, skuChunks_length, itemsInSpanT_length⟩

/-- C1 (witness): the count theorem at concrete inputs — a two-order
document gives two spans, an anchor-only document gives one block, a block
with two line-initial `SKU:` anchors gives two chunks, and a span with two
SKU lines gives two items. -/
theorem claim_C1_witness :
    (splitOrdersT ["x", "Order ID: 12-34", "y", "Order ID: 56-78"]).length = 2 ∧
    (sliceBlocksByOrderId ["Order ID: 123-4567890-1234567", "x"]).length = 1 ∧
    (skuChunksOfBlock ["Order ID: 123-4567890-1234567", "SKU: A", "x", "SKU: B"]).length = 2 ∧
    (itemsInSpanT ["Order ID: 12-34", "SKU: A", "SKU: B"] 0 3 "12-34" "" "" "").length = 2 := by
  refine ⟨?_, ?_, ?_, ?_⟩
  · rw [claim_C1_segmentation_counts.1 ["x", "Order ID: 12-34", "y", "Order ID: 56-78"]]
    decide
  · rw [claim_C1_segmentation_counts.2.1 ["Order ID: 123-4567890-1234567", "x"]]
    decide
  · rw [claim_C1_segmentation_counts.2.2.1
      ["Order ID: 123-4567890-1234567", "SKU: A", "x", "SKU: B"] (by decide)]
    decide
  · rw [claim_C1_segmentation_counts.2.2.2 ["Order ID: 12-34", "SKU: A", "SKU: B"] 0 3 "12-34" "" "" ""]
    decide

/-! ## Claim C2 -/

/-- C2 (counterexample): an explicit zero quantity signal propagates — a
chunk whose text carries `Quantity 0` yields quantity 0, not 1; the
standalone-number scan of `find_quantity_near` propagates a `0` line the
same way; and the zero reaches an emitted record of the app.py pipeline
(the record survives the final order-id filter). -/
theorem claim_C2_counterexample :
    detectQuantity "Quantity 0" "" = 0 ∧ detectQuantity "Quantity 0" "" ≠ 1 ∧
    findQuantityNear ["0", "SKU: Set-3Pcs-White"] 1 = 0 ∧
    ((appFilterRecords (appRecordsOfDoc
        ["Order ID: 123-4567890-1234567", "SKU: Set-3Pcs-White", "Quantity 0"]
        "f.pdf")).map (fun r => r.quantity)) = [0] := by
  refine ⟨by decide, by decide, by decide, by decide⟩

/-- C2 (amended): emitted quantities are natural numbers parsed from the
digit run of the signal; a chunk with no quantity signal (and none in the
surrounding block) yields 1, and a non-numeric signal is no signal, but an
explicit zero signal yields 0 — the defaulting never produces 0 on its
own, yet does not correct an explicit 0. -/
theorem claim_C2_quantity_default :
    (∀ chunk block : String,
        quantityWordSearch chunk = none → quantityWordSearch block = none →
        detectQuantity chunk block = 1) ∧
    detectQuantity "Quantity 3" "Quantity 9" = 3 ∧
    detectQuantity "Quantity: three" "" = 1 ∧
    (∀ (lines : List String) (idx : Nat),
        (∀ t, t < min 10 idx →
          standaloneQtyMatch (lines.getD (idx - 1 - t) "") = none) →
        findQuantityNear lines idx = 1) := by
  refine ⟨?_, by decide, by decide, ?_⟩
  · intro chunk block h1 h2
    unfold detectQuantity
    rw [h1, h2]
  · intro lines idx h
    unfold findQuantityNear
    exact fqnAux_eq_one lines (min 10 idx) (idx - 1) h

/-- C2 (witness): the defaulting theorem applied at concrete inputs with no
quantity signal. -/
theorem claim_C2_witness :
    detectQuantity "no signal here" "nor here" = 1 ∧
    findQuantityNear ["a", "b", "SKU: x"] 2 = 1 := by
  refine ⟨?_, ?_⟩
  · exact claim_C2_quantity_default.1 "no signal here" "nor here" (by decide) (by decide)
  · exact claim_C2_quantity_default.2.2.2 ["a", "b", "SKU: x"] 2 (by decide)

/-! ## Claim C5 -/

/-- C5 (counterexample): the backward standalone-number window of
`find_quantity_near` is 10 lines, not 15 — a standalone integer line exactly
15 lines before the SKU anchor, with no closer signal, is not found and the
quantity defaults to 1 instead of 7. -/
theorem claim_C5_counterexample :
    standaloneQtyMatch
      ((["7"] ++ List.replicate 14 "x" ++ ["SKU: Set-3Pcs-White"]).getD (15 - 15) "") = some 7 ∧
    findQuantityNear (["7"] ++ List.replicate 14 "x" ++ ["SKU: Set-3Pcs-White"]) 15 = 1 ∧
    findQuantityNear (["7"] ++ List.replicate 14 "x" ++ ["SKU: Set-3Pcs-White"]) 15 ≠ 7 := by
  refine ⟨by decide, by decide, by decide⟩

/-- C5 (amended): the two quantity strategies live in separate pipelines.
`detect_quantity` (app.py) applies the `Quantity <n>` anchor, chunk first,
surrounding block second, default 1; `find_quantity_near` (towel_parser.py)
scans backward from the item anchor for a standalone integer line within a
window of at most 10 lines, default 1 — a standalone integer exactly 10
lines before the anchor, with no closer signal, is found, and the scan
never looks further back than 10 lines. -/
theorem claim_C5_quantity_strategy :
    (∀ (chunk block : String) (n : Nat),
        quantityWordSearch chunk = some n → detectQuantity chunk block = n) ∧
    (∀ (chunk block : String) (n : Nat),
        quantityWordSearch chunk = none → quantityWordSearch block = some n →
        detectQuantity chunk block = n) ∧
    (∀ (lines : List String) (idx n : Nat), 10 ≤ idx →
        (∀ k, 1 ≤ k → k < 10 →
          standaloneQtyMatch (lines.getD (idx - k) "") = none) →
        standaloneQtyMatch (lines.getD (idx - 10) "") = some n →
        findQuantityNear lines idx = n) ∧
    (∀ (lines : List String) (idx : Nat),
        (∀ t, t < min 10 idx →
          standaloneQtyMatch (lines.getD (idx - 1 - t) "") = none) →
        findQuantityNear lines idx = 1) := by
  refine ⟨?_, ?_, ?_, ?_⟩
  · intro chunk block n h
    unfold detectQuantity
    rw [h]
  · intro chunk block n h1 h2
    unfold detectQuantity
    rw [h1, h2]
  · intro lines idx n hidx h hhit
    unfold findQuantityNear
    have hmin : min 10 idx = 10 := Nat.min_eq_left hidx
    rw [hmin]
    have h10 : (10 : Nat) = 9 + 1 := by decide
    rw [h10]
    refine fqnAux_hit lines 9 (idx - 1) n (fun t ht => ?_) ?_
    · have hk := h (t + 1) (Nat.le_add_left 1 t) (Nat.succ_lt_succ ht)
      have harg : idx - 1 - t = idx - (t + 1) := by omega
      rw [harg]
      exact hk
    · have harg : idx - 1 - 9 = idx - 10 := by omega
      rw [harg]
      exact hhit
  · intro lines idx h
    unfold findQuantityNear
    exact fqnAux_eq_one lines (min 10 idx) (idx - 1) h

/-- C5 (witness): the strategy theorem at concrete inputs — chunk beats
block for the `Quantity` anchor, a standalone integer exactly 10 lines
before the anchor is found, and an empty window defaults to 1. -/
theorem claim_C5_witness :
    detectQuantity "Quantity 4" "Quantity 8" = 4 ∧
    detectQuantity "none" "Quantity 8" = 8 ∧
    findQuantityNear (["9"] ++ List.replicate 9 "x" ++ ["SKU: Set-3Pcs-White"]) 10 = 9 ∧
    findQuantityNear ["x", "SKU: y"] 1 = 1 := by
  refine ⟨?_, ?_, ?_, ?_⟩
  · exact claim_C5_quantity_strategy.1 "Quantity 4" "Quantity 8" 4 (by decide)
  · exact claim_C5_quantity_strategy.2.1 "none" "Quantity 8" 8 (by decide) (by decide)
  · exact claim_C5_quantity_strategy.2.2.1
      (["9"] ++ List.replicate 9 "x" ++ ["SKU: Set-3Pcs-White"]) 10 9
      (by decide) (by decide) (by decide)
  · exact claim_C5_quantity_strategy.2.2.2 ["x", "SKU: y"] 1 (by decide)

/-! ## Claim C3 -/

/-- C3: the SKU decoders are deterministic total Lean functions of the
input string.  `derive_type_and_color_from_sku` (app.py) decodes
`Set-3Pcs-White` to product type `3-Piece Towel Set` and colour `White`,
and the towel_parser decoder (`parse_sku_color` + `guess_product_type`)
supplies the expected pieces `Washcloth, Hand Towel, Bath Towel` for the
same SKU; for the unknown prefix of `XX-Unknown-Navy`,
`derive_type_and_color_from_sku` passes the prefix itself through as the
label (with colour `Navy`) and the towel_parser decoder yields an empty
piece list — no input raises (the functions are total by construction). -/
theorem claim_C3_sku_decoder :
    deriveTypeAndColorFromSku "Set-3Pcs-White" = ("3-Piece Towel Set", "White") ∧
    guessProductTypeT (parseSkuColorT "Set-3Pcs-White").1 =
      ("3-pc Set", ["Washcloth", "Hand Towel", "Bath Towel"]) ∧
    (parseSkuColorT "Set-3Pcs-White").2 = "White" ∧
    deriveTypeAndColorFromSku "XX-Unknown-Navy" = ("XX-Unknown", "Navy") ∧
    (guessProductTypeT (parseSkuColorT "XX-Unknown-Navy").1).2 = [] := by
  refine ⟨by decide, by decide, by decide, by decide, by decide⟩

/-! ## Claim C4 -/

/-- C4 (counterexample): `parse_orders_from_text` performs no
order-identifier validation — the anchor regex of towel_parser accepts any
digits-and-hyphens run, so an order whose header carries `12-34` emits an
item with `order_id = "12-34"`, which matches the
`\d{3}-\d{7}-\d{7}` pattern nowhere, and the item is in the final output
(`rows_for_dashboard` keeps every item). -/
theorem claim_C4_counterexample :
    ((rowsForDashboard (parseOrdersFromText ["Order ID: 12-34", "SKU: Set-3Pcs-White"])).map
      (fun r => r.orderId)) = ["12-34"] ∧
    fullMatch377 "12-34" = false ∧ containsOrderIdPattern "12-34" = false := by
  refine ⟨by decide, by decide, by decide⟩

/-- C4 (amended): only the app.py pipeline excludes items by order
identifier, and its test is containment, not exact match: every record
surviving the final filter of `parse_pdfs_to_df` has an `Order ID`
containing a `\d{3}-\d{7}-\d{7}` match (so an id with trailing text such
as `... Custom Order` also survives), while the towel_parser pipeline
emits items with any digits-and-hyphens identifier unfiltered. -/
theorem claim_C4_order_id_filter :
    (∀ recs : List AItem,
        ((appFilterRecords recs).all
          (fun r => containsOrderIdPattern r.orderId)) = true) ∧
    ((appFilterRecords (appRecordsOfDoc
        ["Order ID: 123-4567890-1234567 Custom Order", "SKU: Set-3Pcs-White"] "f.pdf")).map
      (fun r => r.orderId)) = ["123-4567890-1234567 Custom Order"] ∧
    ((parseOrdersFromText ["Order ID: 99-9", "SKU: HT-2Pcs-Gold"]).map
      (fun it => it.order_id)) = ["99-9"] := by
  refine ⟨?_, by decide, by decide⟩
  intro recs
  rw [List.all_eq_true]
  intro r hr
  unfold appFilterRecords at hr
  exact (List.mem_filter.mp hr).2

/-- C4 (witness): the filter theorem at a concrete record list containing
one invalid and one valid identifier. -/
theorem claim_C4_witness :
    ((appFilterRecords
      [⟨"bad-id", "", "S", "", "", "", "", [], 1, "", "f"⟩,
       ⟨"123-4567890-1234567", "", "S", "", "", "", "", [], 1, "", "f"⟩]).all
      (fun r => containsOrderIdPattern r.orderId)) = true :=
  claim_C4_order_id_filter.1
    [⟨"bad-id", "", "S", "", "", "", "", [], 1, "", "f"⟩,
     ⟨"123-4567890-1234567", "", "S", "", "", "", "", [], 1, "", "f"⟩]

/-! ## Claim C6 -/

/-- C6 (counterexample): `es_color` (main_app.py), one of the two cited
localizers, does not pair the Spanish and English forms — localizing
`Navy` yields only `Azul Marino`, which does not contain `Navy`, and an
unknown colour passes through unpaired. -/
theorem claim_C6_counterexample :
    esColor "Navy" = "Azul Marino" ∧
    containsSubstr "Azul Marino" "Navy" = false ∧
    esColor "Chartreuse" = "Chartreuse" := by
  refine ⟨by decide, by decide, by decide⟩

/-- C6 (amended): `translate_thread_color` (app.py) behaves exactly as the
claim states — `Navy` and `Navy (#123456)` both localize to
`Azul Marino (Navy)` and the unknown `Chartreuse` passes through paired
with itself — while `es_color` (main_app.py) yields only the Spanish form
for known colours and the raw value, unpaired, for unknown ones; neither
function can raise. -/
theorem claim_C6_localization :
    translateThreadColor "Navy" = "Azul Marino (Navy)" ∧
    translateThreadColor "Navy (#123456)" = "Azul Marino (Navy)" ∧
    translateThreadColor "Chartreuse" = "Chartreuse (Chartreuse)" ∧
    esColor "Navy" = "Azul Marino" ∧
    esColor "Navy (#123456)" = "Navy (#123456)" ∧
    esColor "Chartreuse" = "Chartreuse" := by
  refine ⟨by decide, by decide, by decide, by decide, by decide, by decide⟩

/-! ## Claim C7 -/

/-- C7 (counterexample): `parse_customizations` (towel_parser.py), a cited
extractor, recognizes only the primary labels — a chunk carrying only the
alternate `Embroidery Font: Script` yields an empty font, not `Script`,
so the alternate label is never consulted there. -/
theorem claim_C7_counterexample :
    (parseCustomizationsT ["Embroidery Font: Script"] 0 "3-pc Set"
      ["Washcloth", "Hand Towel", "Bath Towel"]).1 = "" ∧
    (parseCustomizationsT ["Embroidery Font: Script"] 0 "3-pc Set"
      ["Washcloth", "Hand Towel", "Bath Towel"]).1 ≠ "Script" := by
  refine ⟨by decide, by decide⟩

/-- C7 (amended): the primary/alternate fallback exists only in app.py's
`extract_items_from_block`: there the font is the `Choose Your Font` value
whenever that is nonempty and the `Embroidery Font` value otherwise, and
the thread colour is the `Font Color` value whenever that is nonempty and
the `Thread Color` value otherwise (first match wins, the two labels are
never merged); towel_parser's `parse_customizations` reads only the
primary labels `Choose Your Font` / `Font Color`. -/
theorem claim_C7_font_thread_precedence :
    (∀ chLines : List String,
        findFieldValue chLines "Choose Your Font" ≠ "" →
        fontOfChunk chLines = findFieldValue chLines "Choose Your Font") ∧
    (∀ chLines : List String,
        findFieldValue chLines "Choose Your Font" = "" →
        fontOfChunk chLines = findFieldValue chLines "Embroidery Font") ∧
    (∀ chLines : List String,
        findFieldValue chLines "Font Color" ≠ "" →
        threadRawOfChunk chLines = findFieldValue chLines "Font Color") ∧
    (∀ chLines : List String,
        findFieldValue chLines "Font Color" = "" →
        threadRawOfChunk chLines = findFieldValue chLines "Thread Color") ∧
    fontOfChunk ["Choose Your Font: A", "Embroidery Font: B"] = "A" ∧
    (parseCustomizationsT ["Choose Your Font: A", "Embroidery Font: B"] 0
      "3-pc Set" ["Washcloth", "Hand Towel", "Bath Towel"]).1 = "A" := by
  refine ⟨?_, ?_, ?_, ?_, by decide, by decide⟩
  · intro chLines h
    unfold fontOfChunk
    rw [if_neg h]
  · intro chLines h
    unfold fontOfChunk
    rw [if_pos h]
  · intro chLines h
    unfold threadRawOfChunk
    rw [if_neg h]
  · intro chLines h
    unfold threadRawOfChunk
    rw [if_pos h]

/-- C7 (witness): the precedence theorem at concrete chunks — primary
nonempty (the alternate is ignored), and primary empty (the alternate is
used). -/
theorem claim_C7_witness :
    fontOfChunk ["Choose Your Font: P", "Embroidery Font: Q"] = "P" ∧
    fontOfChunk ["Embroidery Font: Q"] = "Q" ∧
    threadRawOfChunk ["Font Color: Gold", "Thread Color: Red"] = "Gold" ∧
    threadRawOfChunk ["Thread Color: Red"] = "Red" := by
  refine ⟨?_, ?_, ?_, ?_⟩
  · rw [claim_C7_font_thread_precedence.1 ["Choose Your Font: P", "Embroidery Font: Q"]
      (by decide)]
    decide
  · rw [claim_C7_font_thread_precedence.2.1 ["Embroidery Font: Q"] (by decide)]
    decide
  · rw [claim_C7_font_thread_precedence.2.2.1 ["Font Color: Gold", "Thread Color: Red"]
      (by decide)]
    decide
  · rw [claim_C7_font_thread_precedence.2.2.2.1 ["Thread Color: Red"] (by decide)]
    decide

/-! ## Claim C8 -/

lemma dictUpsert_pred (P : String → Prop) (k v : String) (hk : P k) :
    ∀ (custom : List (String × String)),
      (∀ kv ∈ custom, P kv.1) →
      ∀ kv ∈ dictUpsert custom k v, P kv.1 := by
  intro custom
  induction custom with
  | nil =>
    intro _ kv hkv
    simp only [dictUpsert, List.mem_singleton] at hkv
    rw [hkv]
    exact hk
  | cons hd tl ih =>
    intro hc kv hkv
    obtain ⟨k', v'⟩ := hd
    rw [dictUpsert] at hkv
    by_cases he : k' = k
    · rw [if_pos he] at hkv
      rcases List.mem_cons.mp hkv with h1 | h2
      · rw [h1]
        exact hc (k', v') (List.mem_cons_self _ _)
      · exact hc kv (List.mem_cons_of_mem _ h2)
    · rw [if_neg he] at hkv
      rcases List.mem_cons.mp hkv with h1 | h2
      · rw [h1]
        exact hc (k', v') (List.mem_cons_self _ _)
      · exact ih (fun kv2 hkv2 => hc kv2 (List.mem_cons_of_mem _ hkv2)) kv h2

lemma custUpdate_pred (expected : List String) (hne : expected ≠ [])
    (custom : List (String × String)) (ln : String)
    (hc : ∀ kv ∈ custom, c8guard expected kv.1) :
    ∀ kv ∈ custUpdate expected custom ln, c8guard expected kv.1 := by
  unfold custUpdate
  have hie : expected.isEmpty = false := by
    cases expected with
    | nil => exact absurd rfl hne
    | cons e es => rfl
  rw [hie]
  simp only [Bool.false_eq_true, if_false]
  by_cases hg : expected.contains (custKey ln) = true ∨
      expected.any (fun p => (headWord p).data.isSuffixOf (custKey ln).data) = true
  · rw [if_pos hg]
    exact dictUpsert_pred (c8guard expected) (custKey ln) (custVal ln) hg custom hc
  · rw [if_neg hg]
    exact hc

lemma parseCustAux_keys (expected : List String) (hne : expected ≠ []) :
    ∀ (rem : List String) (dist : Nat) (font thread : String)
      (custom : List (String × String)),
      (∀ kv ∈ custom, c8guard expected kv.1) →
      ∀ kv ∈ (parseCustAux expected rem dist font thread custom).2.2,
        c8guard expected kv.1 := by
  intro rem
  induction rem with
  | nil =>
    intro dist font thread custom hc kv hkv
    exact hc kv hkv
  | cons ln0 rest ih =>
    intro dist font thread custom hc kv hkv
    rw [parseCustAux] at hkv
    by_cases h1 : pyStrip ln0 = ""
    · rw [if_pos h1] at hkv
      by_cases h2 : 25 < dist
      · rw [if_pos h2] at hkv
        exact hc kv hkv
      · rw [if_neg h2] at hkv
        exact ih _ _ _ _ hc kv hkv
    · rw [if_neg h1] at hkv
      by_cases h3 : ((orderIdCapT (pyStrip ln0)).isSome ||
          (skuMatchT (pyStrip ln0)).isSome) = true
      · rw [if_pos h3] at hkv
        exact hc kv hkv
      · rw [if_neg h3] at hkv
        cases h4 : chooseFontMatchT (pyStrip ln0) with
        | some f =>
          rw [h4] at hkv
          exact ih _ _ _ _ hc kv hkv
        | none =>
          rw [h4] at hkv
          cases h5 : fontColorMatchT (pyStrip ln0) with
          | some t =>
            rw [h5] at hkv
            exact ih _ _ _ _ hc kv hkv
          | none =>
            rw [h5] at hkv
            by_cases h6 : containsSubstr (pyStrip ln0) ":" = true
            · rw [if_pos h6] at hkv
              exact ih _ _ _ _
                (custUpdate_pred expected hne custom (pyStrip ln0) hc) kv hkv
            · rw [if_neg h6] at hkv
              exact ih _ _ _ _ hc kv hkv

/-- C8 (counterexample): the vocabulary guard of `parse_customizations`
admits keys outside the expected piece names — for the 3-piece set, whose
pieces are `Washcloth`, `Hand Towel`, `Bath Towel`, the colon-bearing line
`Left Hand: Hi` puts the key `Left Hand` (which merely ends with the head
word `Hand`) into the customization map. -/
theorem claim_C8_counterexample :
    (parseCustomizationsT ["Left Hand: Hi"] 0 "3-pc Set"
      ["Washcloth", "Hand Towel", "Bath Towel"]).2.2 = [("Left Hand", "Hi")] ∧
    ("Left Hand" : String) ∉ (["Washcloth", "Hand Towel", "Bath Towel"] : List String) := by
  refine ⟨by decide, by decide⟩

/-- C8 (amended): for a structured product type, every key of the
customization map assembled by `parse_customizations` is either an
expected piece name or a string ending with the first word of an expected
piece name — the guard is `key in expected_pieces or
any(key.endswith(p.split()[0]))`, not plain membership, so header-like
keys sharing a final word can leak in. -/
theorem claim_C8_custom_keys :
    ∀ (lines : List String) (startIdx : Nat) (disp : String)
      (expected : List String), expected ≠ [] →
      ∀ kv ∈ (parseCustomizationsT lines startIdx disp expected).2.2,
        kv.1 ∈ expected ∨
        expected.any (fun p => (headWord p).data.isSuffixOf kv.1.data) = true := by
  intro lines startIdx disp expected hne kv hkv
  have h := parseCustAux_keys expected hne (lines.drop startIdx) 0 "" "" []
    (by intro kv2 h2; exact absurd h2 (List.not_mem_nil kv2)) kv hkv
  rcases h with h | h
  · left
    exact List.elem_iff.mp h
  · right
    exact h

/-- C8 (witness): the key theorem applied to a concrete scan whose only
captured key, `My Bath`, enters through the suffix guard. -/
theorem claim_C8_witness :
    ("My Bath" : String) ∈ (["Washcloth", "Hand Towel", "Bath Towel"] : List String) ∨
    (["Washcloth", "Hand Towel", "Bath Towel"] : List String).any
      (fun p => (headWord p).data.isSuffixOf ("My Bath" : String).data) = true :=
  claim_C8_custom_keys ["My Bath: x"] 0 "3-pc Set"
    ["Washcloth", "Hand Towel", "Bath Towel"] (by decide)
    ("My Bath", "x") (by decide)

/-! ## Claim C9 -/

/-- C9 (counterexample): `parse_pdfs` (main_app.py) carries the buyer name
across order blocks through the mutable `current_buyer` variable — page 2
opens a new order with no buyer line of its own, yet its emitted item
carries the previous order's buyer `Alice` instead of an empty name. -/
theorem claim_C9_counterexample :
    ((mainParsePdfs
      [["Order ID: 111-1111111-1111111", "Buyer Name: Alice", "SKU: Set-3Pcs-White"],
       ["Order ID: 222-2222222-2222222", "SKU: BT-2Pcs-Beige"]] "slips.pdf").map
      (fun r => (r.order_id, r.buyer_name))) =
      [("111-1111111-1111111", "Alice"), ("222-2222222-2222222", "Alice")] ∧
    (["Order ID: 222-2222222-2222222", "SKU: BT-2Pcs-Beige"].all
      (fun l => (buyerSearchMain l).isNone)) = true := by
  refine ⟨by decide, by decide⟩

/-- C9 (amended): the block-scoped extractor of app.py does own its
metadata — every item emitted by `extract_items_from_block` carries exactly
the buyer name and order id found in its own enclosing block's lines (all
items of one block share them, and a block with no buyer line yields the
empty buyer) — whereas the streaming parser of main_app.py keeps the
buyer in mutable state that can leak into a later order block lacking its
own buyer line. -/
theorem claim_C9_block_scoped_metadata :
    ∀ (block : List String) (src : String),
      ((extractItemsFromBlock block src).all (fun it =>
        it.buyer == findFieldValue (block.filter (fun ln => pyStrip ln != "")) "Buyer Name" &&
        it.orderId == findFieldValue (block.filter (fun ln => pyStrip ln != "")) "Order ID")) = true := by
  intro block src
  rw [List.all_eq_true]
  intro it hit
  simp only [extractItemsFromBlock] at hit
  rw [List.mem_filterMap] at hit
  obtain ⟨ch, hch, hf⟩ := hit
  by_cases hsku : findFieldValue (ch.filter (fun ln => pyStrip ln != "")) "SKU" = ""
  · rw [if_pos hsku] at hf
    exact absurd hf (by simp)
  · rw [if_neg hsku] at hf
    have hrec := Option.some.inj hf
    rw [← hrec]
    simp

/-- C9 (witness): the block-scoping theorem at a concrete block with two
items (they share the block's buyer and order id). -/
theorem claim_C9_witness :
    ((extractItemsFromBlock ["Order ID: 123-4567890-1234567",
        "Buyer Name: Jane", "SKU: Set-3Pcs-White", "SKU: BT-2Pcs-Beige"] "f.pdf").all
      (fun it =>
        it.buyer == findFieldValue
          (["Order ID: 123-4567890-1234567", "Buyer Name: Jane",
            "SKU: Set-3Pcs-White", "SKU: BT-2Pcs-Beige"].filter
              (fun ln => pyStrip ln != "")) "Buyer Name" &&
        it.orderId == findFieldValue
          (["Order ID: 123-4567890-1234567", "Buyer Name: Jane",
            "SKU: Set-3Pcs-White", "SKU: BT-2Pcs-Beige"].filter
              (fun ln => pyStrip ln != "")) "Order ID")) = true :=
  claim_C9_block_scoped_metadata
    ["Order ID: 123-4567890-1234567", "Buyer Name: Jane",
     "SKU: Set-3Pcs-White", "SKU: BT-2Pcs-Beige"] "f.pdf"

/-! ## Claim C10 -/

lemma splitChars_eq_single {p : Char → Bool} :
    ∀ {l : List Char}, (∀ c ∈ l, p c = false) → splitChars p l = [l] := by
  intro l
  induction l with
  | nil => intro _; rfl
  | cons c cs ih =>
    intro h
    rw [splitChars]
    have hc : p c = false := h c (List.mem_cons_self _ _)
    rw [ih (fun d hd => h d (List.mem_cons_of_mem _ hd))]
    rw [hc]
    simp

/-- C10 (counterexample): `derive_type_and_color_from_sku` splits on the
en dash as well — `XX–YY` contains no hyphen, yet decoding it yields
`("XX-YY", "")`, not the pair of empty strings. -/
theorem claim_C10_counterexample :
    deriveTypeAndColorFromSku "XX–YY" = ("XX-YY", "") ∧
    ("XX–YY" : String).data.all (fun c => !(c == '-')) = true ∧
    "XX–YY" ≠ "" ∧
    deriveTypeAndColorFromSku "XX–YY" ≠ ("", "") := by
  refine ⟨by decide, by decide, by decide, by decide⟩

/-- C10 (amended): `derive_type_and_color_from_sku` returns `("", "")` for
the empty string and for every non-empty string containing neither of the
two separators the splitter recognises, the hyphen `-` and the en dash
`–`; it is total by construction, so every caller receives a well-formed
pair. -/
theorem claim_C10_no_separator_total :
    ∀ sku : String, (∀ c ∈ sku.data, c ≠ '-' ∧ c ≠ '–') →
      deriveTypeAndColorFromSku sku = ("", "") := by
  intro sku h
  by_cases he : sku = ""
  · simp [deriveTypeAndColorFromSku, he]
  · have hsep : ∀ c ∈ (pyStrip sku).data, isDashSep c = false := by
      intro c hc
      have hmem : c ∈ sku.data := mem_of_mem_stripChars hc
      have h2 := h c hmem
      unfold isDashSep
      have hb1 : (c == '-') = false := beq_eq_false_iff_ne.mpr h2.1
      have hb2 : (c == '–') = false := beq_eq_false_iff_ne.mpr h2.2
      rw [hb1, hb2]
      rfl
    simp only [deriveTypeAndColorFromSku, if_neg he, splitChars_eq_single hsep,
      List.length_singleton]
    norm_num

/-- C10 (witness): the totality theorem at a separator-free input. -/
theorem claim_C10_witness : deriveTypeAndColorFromSku "Towel" = ("", "") :=
  claim_C10_no_separator_total "Towel" (by decide)

